import Mathlib

/-!
Shallow embedding of `src/app.py` (a Flask YouTube download backend) and
proofs about its specification.  Strings are modelled as `List Char`;
the filesystem and the external extraction library (`yt_dlp`) are modelled
as explicit oracle inputs to the handler functions.
-/

namespace App

/-- Character list of a string literal; every Python string in the source is
modelled as a `List Char`. -/
def chars (s : String) : List Char := s.data

/-! ## URL validator (`validate_youtube_url`, src/app.py lines 26-33) -/

/-- Consume an exact literal from the front of the input, returning the
remainder when the literal is a prefix of the input. -/
def dropPrefixO : List Char → List Char → Option (List Char)
  | [], s => some s
  | _ :: _, [] => none
  | c :: p, d :: s => if c = d then dropPrefixO p s else none

/-- Alternatives generated by the optional regex group `(https?://)?`. -/
def schemeOpts : List (List Char) := [[], chars "http://", chars "https://"]

/-- Alternatives generated by the optional regex group `(www\.)?`. -/
def wwwOpts : List (List Char) := [[], chars "www."]

/-- The six host strings generated by `(youtube|youtu|youtube-nocookie)\.(com|be)/`
in the first pattern of `validate_youtube_url`. -/
def pattern1Tails : List (List Char) :=
  [chars "youtube.com/", chars "youtube.be/", chars "youtu.com/",
   chars "youtu.be/", chars "youtube-nocookie.com/", chars "youtube-nocookie.be/"]

/-- Membership in the regex character class `[\w-]` (ASCII fragment of
Python's `\w`, plus the literal dash). -/
def wordDash (c : Char) : Bool := c.isAlphanum || c = '_' || c = '-'

/-- Whether a character list starts with a `[\w-]` character. -/
def headWord : List Char → Bool
  | [] => false
  | c :: _ => wordDash c

/-- Match one literal alternative at the start of the input, as `re.match`
does (anchored at the start, unanchored at the end); when `needWord` is set
the pattern additionally demands at least one `[\w-]` character (modelling a
trailing `[\w-]+` in the pattern). -/
def afterLit (p s : List Char) (needWord : Bool) : Bool :=
  match dropPrefixO p s with
  | some r => !needWord || headWord r
  | none => false

/-- Existential semantics of one of the three regexes of
`validate_youtube_url`: optional scheme, optional `www.`, one of the given
literal tails, and (when `needWord`) a following `[\w-]` character. -/
def matchPat (tails : List (List Char)) (needWord : Bool) (s : List Char) : Bool :=
  schemeOpts.any fun sc => wwwOpts.any fun w => tails.any fun t =>
    afterLit (sc ++ (w ++ t)) s needWord

/-- Embedding of `validate_youtube_url` from src/app.py: `re.match` of any of
the three patterns against the URL. -/
def validate_youtube_url (s : List Char) : Bool :=
  matchPat pattern1Tails false s
    || matchPat [chars "youtube.com/watch?v="] true s
    || matchPat [chars "youtu.be/"] true s

/-- Acceptance by bare recognized-host prefix: an optional scheme, an
optional `www.`, one of the six recognized host forms followed by `/`, and
then anything at all (the amended description of what the validator
accepts). -/
def acceptsRecognizedHost (s : List Char) : Bool :=
  schemeOpts.any fun sc => wwwOpts.any fun w => pattern1Tails.any fun t =>
    (sc ++ (w ++ t)).isPrefixOf s

/-! ## Filename sanitizer (`clean_filename`, src/app.py lines 35-44) -/

/-- The characters removed by `re.sub` in `clean_filename`:
the Windows-illegal set. -/
def illegalFilenameChar (c : Char) : Bool :=
  c = '<' || c = '>' || c = ':' || c = '"' || c = '/' || c = '\\' ||
  c = '|' || c = '?' || c = '*'

/-- The character set of Python's `strip('. ')` in `clean_filename`. -/
def stripCharSet (c : Char) : Bool := c = '.' || c = ' '

/-- Remove the longest run of characters satisfying `p` from the end of a
list (the trailing half of Python's `str.strip`). -/
def stripEnd (p : Char → Bool) (l : List Char) : List Char :=
  (l.reverse.dropWhile p).reverse

/-- Python's `str.strip(set)`: remove characters of the set from both ends. -/
def stripBoth (p : Char → Bool) (l : List Char) : List Char :=
  stripEnd p (l.dropWhile p)

/-- First statement of `clean_filename`: `re.sub(r'[<>:"/\\|?*]', '', filename)`. -/
def removeIllegal (s : List Char) : List Char :=
  s.filter fun c => !illegalFilenameChar c

/-- Third statement of `clean_filename`: truncate to 200 characters when the
length exceeds 200. -/
def truncate200 (l : List Char) : List Char :=
  if l.length > 200 then l.take 200 else l

/-- Final statement of `clean_filename`: `cleaned if cleaned else 'download'`. -/
def fallbackIfEmpty (l : List Char) : List Char :=
  if l.isEmpty then chars "download" else l

/-- Embedding of `clean_filename` from src/app.py: remove illegal characters,
strip leading/trailing dots and spaces, truncate to 200 characters, and fall
back to "download" when empty. -/
def clean_filename (s : List Char) : List Char :=
  fallbackIfEmpty (truncate200 (stripBoth stripCharSet (removeIllegal s)))

/-- Python's `str.strip()` with no argument (whitespace strip), used on the
incoming URL in every handler. -/
def pyStrip (l : List Char) : List Char :=
  stripBoth Char.isWhitespace l

/-! ## Temporary storage manager (`clean_old_files`, src/app.py lines 46-56) -/

/-- One entry of the scratch directory as seen by `clean_old_files`:
whether it is a regular file, its modification time, and whether an attempt
to `unlink` it raises (modelling a concurrent deletion or permission
error). -/
structure DirEntry where
  isFile : Bool
  mtime : Int
  unlinkFails : Bool
deriving DecidableEq, Repr

/-- The `for file in DOWNLOAD_DIR.iterdir()` loop body of `clean_old_files`:
delete every regular file older than 3600 seconds.  Returns the surviving
entries and whether an exception escaped the loop.  When an `unlink` raises,
the raising entry and every entry after it survive, because the exception
aborts the loop. -/
def sweepFrom (now : Int) : List DirEntry → List DirEntry × Bool
  | [] => ([], false)
  | e :: rest =>
    if e.isFile && decide (now - e.mtime > 3600) then
      if e.unlinkFails then (e :: rest, true)
      else sweepFrom now rest
    else
      ((e :: (sweepFrom now rest).1), (sweepFrom now rest).2)

/-- Embedding of `clean_old_files` from src/app.py.  The whole loop is
wrapped in `try/except Exception`, so no exception ever reaches the caller
(second component always `false`); an unreadable directory (`readable =
false`, `iterdir` raising) leaves every entry in place. -/
def clean_old_files (readable : Bool) (now : Int) (es : List DirEntry) :
    List DirEntry × Bool :=
  if readable then ((sweepFrom now es).1, false) else (es, false)

/-! ## Output path templates (src/app.py lines 115-116 and 173-174) -/

/-- Decimal digit characters of a natural number, most significant first:
the decimal rendering performed by the Python f-string `f'video_{timestamp}_...'`
on the integer timestamp. -/
def decimalDigits (n : Nat) : List Char :=
  if n = 0 then ['0'] else ((Nat.digits 10 n).map Nat.digitChar).reverse

/-- Decode a decimal character list back to a natural number (used to prove
`decimalDigits` injective). -/
def decodeDec (l : List Char) : Nat :=
  Nat.ofDigits 10 (l.reverse.map fun c => c.toNat - 48)

/-- The `outtmpl` string built by the download handlers:
`str(DOWNLOAD_DIR / f'{kind}_{timestamp}_%(title)s.%(ext)s')`.  The path join
is modelled with a `/` separator. -/
def output_template (dir kind : List Char) (ts : Nat) : List Char :=
  dir ++ ['/'] ++ kind ++ ['_'] ++ decimalDigits ts ++ chars "_%(title)s.%(ext)s"

/-- The template allocated by `download_video` (line 116). -/
def video_template (dir : List Char) (ts : Nat) : List Char :=
  output_template dir (chars "video") ts

/-- The template allocated by `download_audio` (line 174). -/
def audio_template (dir : List Char) (ts : Nat) : List Char :=
  output_template dir (chars "audio") ts

/-! ## os.path.splitext (used at lines 134 and 194) -/

/-- Index of the last character satisfying `p`, if any. -/
def rfindPos (p : Char → Bool) (l : List Char) : Option Nat :=
  match l.reverse.findIdx? p with
  | some i => some (l.length - 1 - i)
  | none => none

/-- Root part of CPython's `os.path.splitext` (`genericpath._splitext`):
split at the last dot of the final path component, unless every character of
the component before that dot is itself a dot.  Both `/` and `\` are treated
as separators (the source configures a Windows ffmpeg path). -/
def splitextRoot (l : List Char) : List Char :=
  let sep1 : Nat :=
    match rfindPos (fun c => c == '/' || c == '\\') l with
    | some i => i + 1
    | none => 0
  match rfindPos (fun c => c == '.') l with
  | none => l
  | some d =>
    if sep1 ≤ d then
      if ((l.drop sep1).take (d - sep1)).any (fun c => !(c == '.')) then l.take d
      else l
    else l

/-! ## Handlers (src/app.py lines 70-218) -/

/-- Substring test: Python's `needle in haystack` on strings. -/
def containsSub (needle : List Char) : List Char → Bool
  | [] => needle.isEmpty
  | c :: rest => needle.isPrefixOf (c :: rest) || containsSub needle rest

/-- ASCII lowercasing, modelling `str.lower()` on the error message. -/
def lowerChars (l : List Char) : List Char := l.map Char.toLower

/-- The site-blocking signature test of both download handlers:
`'403' in error_msg or 'Forbidden' in error_msg`. -/
def blockedMsg (m : List Char) : Bool :=
  containsSub (chars "403") m || containsSub (chars "Forbidden") m

/-- The ffmpeg signature test of `download_audio`:
`'ffmpeg' in error_msg.lower() or 'ffprobe' in error_msg.lower()`. -/
def ffmpegMsg (m : List Char) : Bool :=
  containsSub (chars "ffmpeg") (lowerChars m) ||
  containsSub (chars "ffprobe") (lowerChars m)

/-- The constant `FFMPEG_PATH` of src/app.py. -/
def FFMPEG_PATH : List Char := chars "C:\\ffmpeg\\bin"

/-- Outcome of the `ydl.extract_info(url, download=True)` call, an oracle
input: success carries the optional extracted title and the filename
predicted by `ydl.prepare_filename(info)`; the two error cases are
`yt_dlp.utils.DownloadError` and any other exception. -/
inductive Outcome where
  | success : Option (List Char) → List Char → Outcome
  | downloadError : List Char → Outcome
  | otherError : List Char → Outcome
deriving DecidableEq, Repr

/-- An HTTP response of the app: a JSON error with status, a video-info JSON
payload, or a `send_file` response (served path, download name, mimetype). -/
inductive Resp where
  | jsonError : Nat → List Char → Resp
  | jsonInfo : List Char → Int → List Char → Resp
  | fileResp : List Char → List Char → List Char → Resp
deriving DecidableEq, Repr

/-- HTTP status of a response (`send_file` and info responses are 200). -/
def Resp.status : Resp → Nat
  | .jsonError s _ => s
  | .jsonInfo _ _ _ => 200
  | .fileResp _ _ _ => 200

/-- Whether the response is a JSON error body. -/
def Resp.isJsonError : Resp → Bool
  | .jsonError _ _ => true
  | _ => false

/-- Observable run of a download handler: the response together with which
side effects happened (eviction sweep, template allocation, extraction
call). -/
structure HandlerRun where
  resp : Resp
  evictionRan : Bool
  outputTemplate : Option (List Char)
  extractionInvoked : Bool
deriving DecidableEq, Repr

/-- Body of `download_video` after the two URL checks (src/app.py lines
113-156): eviction sweep, template allocation, extraction, file-existence
fallback and response shaping. -/
def download_video_core (dir : List Char) (ts : Nat) (outcome : Outcome)
    (fsExists : List Char → Bool) : HandlerRun :=
  let tmpl := video_template dir ts
  match outcome with
  | .success title fname =>
    let vtitle := clean_filename (title.getD (chars "video"))
    if fsExists fname then
      ⟨.fileResp fname (vtitle ++ chars ".mp4") (chars "video/mp4"),
        true, some tmpl, true⟩
    else
      let fmp4 := splitextRoot fname ++ chars ".mp4"
      if fsExists fmp4 then
        ⟨.fileResp fmp4 (vtitle ++ chars ".mp4") (chars "video/mp4"),
          true, some tmpl, true⟩
      else
        ⟨.jsonError 500 (chars "Download failed - file not found"),
          true, some tmpl, true⟩
  | .downloadError msg =>
    if blockedMsg msg then
      ⟨.jsonError 403 (chars "YouTube blocked the download. Try a different video."),
        true, some tmpl, true⟩
    else
      ⟨.jsonError 500 (chars "Download error: " ++ msg), true, some tmpl, true⟩
  | .otherError msg =>
    ⟨.jsonError 500 (chars "Download failed: " ++ msg), true, some tmpl, true⟩

/-- Embedding of `download_video` (src/app.py lines 100-156).  `dir` is
`DOWNLOAD_DIR`, `ts` the `int(time.time())` timestamp, `outcome` the result
of the extraction call and `fsExists` the `os.path.exists` oracle. -/
def download_video (dir urlRaw : List Char) (ts : Nat) (outcome : Outcome)
    (fsExists : List Char → Bool) : HandlerRun :=
  let url := pyStrip urlRaw
  if url.isEmpty then
    ⟨.jsonError 400 (chars "URL is required"), false, none, false⟩
  else if !validate_youtube_url url then
    ⟨.jsonError 400 (chars "Invalid YouTube URL"), false, none, false⟩
  else
    download_video_core dir ts outcome fsExists

/-- Body of `download_audio` after the two URL checks (src/app.py lines
171-218).  On success the served filename is
`os.path.splitext(prepare_filename)[0] + '.mp3'`. -/
def download_audio_core (dir : List Char) (ts : Nat) (outcome : Outcome)
    (fsExists : List Char → Bool) : HandlerRun :=
  let tmpl := audio_template dir ts
  match outcome with
  | .success title base =>
    let atitle := clean_filename (title.getD (chars "audio"))
    let fname := splitextRoot base ++ chars ".mp3"
    if fsExists fname then
      ⟨.fileResp fname (atitle ++ chars ".mp3") (chars "audio/mpeg"),
        true, some tmpl, true⟩
    else
      ⟨.jsonError 500 (chars "Download failed - MP3 conversion failed"),
        true, some tmpl, true⟩
  | .downloadError msg =>
    if blockedMsg msg then
      ⟨.jsonError 403 (chars "YouTube blocked the download. Try a different video."),
        true, some tmpl, true⟩
    else if ffmpegMsg msg then
      ⟨.jsonError 500 (chars "FFmpeg error. Check installation at " ++ FFMPEG_PATH),
        true, some tmpl, true⟩
    else
      ⟨.jsonError 500 (chars "Download error: " ++ msg), true, some tmpl, true⟩
  | .otherError msg =>
    ⟨.jsonError 500 (chars "Download failed: " ++ msg), true, some tmpl, true⟩

/-- Embedding of `download_audio` (src/app.py lines 158-218). -/
def download_audio (dir urlRaw : List Char) (ts : Nat) (outcome : Outcome)
    (fsExists : List Char → Bool) : HandlerRun :=
  let url := pyStrip urlRaw
  if url.isEmpty then
    ⟨.jsonError 400 (chars "URL is required"), false, none, false⟩
  else if !validate_youtube_url url then
    ⟨.jsonError 400 (chars "Invalid YouTube URL"), false, none, false⟩
  else
    download_audio_core dir ts outcome fsExists

/-- A handler run that answered 400 with a JSON error body and performed no
side effect: no eviction sweep, no path allocation, no extraction call. -/
def shortCircuit400 (r : HandlerRun) : Bool :=
  decide (r.resp.status = 400) && r.resp.isJsonError && !r.evictionRan &&
  r.outputTemplate.isNone && !r.extractionInvoked

/-- Outcome of the metadata-only extraction call of `get_video_info`:
optional title, duration and uploader on success, or one of the two error
classes. -/
inductive InfoOutcome where
  | success : Option (List Char) → Option Int → Option (List Char) → InfoOutcome
  | downloadError : List Char → InfoOutcome
  | otherError : List Char → InfoOutcome
deriving DecidableEq, Repr

/-- Observable run of the metadata handler: response, effect flags, whether
the extraction library was invoked with `download=True`, and the scratch
directory state after the request. -/
structure InfoRun where
  resp : Resp
  evictionRan : Bool
  outputTemplate : Option (List Char)
  downloadFlagTrue : Bool
  dirAfter : List DirEntry
deriving DecidableEq, Repr

/-- Embedding of `get_video_info` (src/app.py lines 70-98).  The handler
contains no filesystem operation, so the scratch directory state `dirState`
is returned unchanged; the extraction call uses `skip_download=True` and
`download=False`, so `downloadFlagTrue` is `false` in every branch. -/
def get_video_info (urlRaw : List Char) (outcome : InfoOutcome)
    (dirState : List DirEntry) : InfoRun :=
  let url := pyStrip urlRaw
  if url.isEmpty then
    ⟨.jsonError 400 (chars "URL is required"), false, none, false, dirState⟩
  else if !validate_youtube_url url then
    ⟨.jsonError 400 (chars "Invalid YouTube URL"), false, none, false, dirState⟩
  else
    match outcome with
    | .success t d u =>
      ⟨.jsonInfo (t.getD (chars "Unknown")) (d.getD 0) (u.getD (chars "Unknown")),
        false, none, false, dirState⟩
    | .downloadError m =>
      ⟨.jsonError 400 (chars "YouTube error: " ++ m), false, none, false, dirState⟩
    | .otherError m =>
      ⟨.jsonError 500 (chars "Failed to fetch video info: " ++ m),
        false, none, false, dirState⟩

/-! ## Lemmas about the regex matcher -/

theorem dropPrefixO_eq_some_iff {p s r : List Char} :
    dropPrefixO p s = some r ↔ s = p ++ r := by
  induction p generalizing s with
  | nil =>
    simp only [dropPrefixO, Option.some.injEq, List.nil_append]
  | cons c p ih =>
    cases s with
    | nil => simp [dropPrefixO]
    | cons d s =>
      simp only [dropPrefixO, List.cons_append, List.cons.injEq]
      rcases eq_or_ne c d with rfl | h
      · simp [ih]
      · simp only [if_neg h]
        constructor
        · intro he; cases he
        · intro he; exact absurd he.1.symm h

theorem isPrefixOf_eq_true_iff {p s : List Char} :
    p.isPrefixOf s = true ↔ ∃ r, dropPrefixO p s = some r := by
  rw [ List.isPrefixOf_iff_prefix]
  constructor
  · rintro ⟨t, rfl⟩
    exact ⟨t, dropPrefixO_eq_some_iff.mpr rfl⟩
  · rintro ⟨r, h⟩
    exact ⟨r, (dropPrefixO_eq_some_iff.mp h).symm⟩

theorem afterLit_false_eq (p s : List Char) :
    afterLit p s false = p.isPrefixOf s := by
  cases h : dropPrefixO p s with
  | none =>
    have : p.isPrefixOf s = false := by
      cases hp : p.isPrefixOf s
      · rfl
      · obtain ⟨r, hr⟩ := isPrefixOf_eq_true_iff.mp hp
        rw [h] at hr
        cases hr
    simp [afterLit, h, this]
  | some r =>
    have : p.isPrefixOf s = true := isPrefixOf_eq_true_iff.mpr ⟨r, h⟩
    simp [afterLit, h, this]

theorem afterLit_append_isPrefixOf {p q s : List Char} {b : Bool}
    (h : afterLit (p ++ q) s b = true) : p.isPrefixOf s = true := by
  unfold afterLit at h
  cases hd : dropPrefixO (p ++ q) s with
  | none => rw [hd] at h; cases h
  | some r =>
    have hs := dropPrefixO_eq_some_iff.mp hd
    rw [ List.isPrefixOf_iff_prefix]
    exact ⟨q ++ r, by rw [hs, List.append_assoc]⟩

theorem matchPat_false_eq_acceptsRecognizedHost (s : List Char) :
    matchPat pattern1Tails false s = acceptsRecognizedHost s := by
  simp only [matchPat, acceptsRecognizedHost, afterLit_false_eq]

theorem matchPat_watch_subsumed {s : List Char}
    (h : matchPat [chars "youtube.com/watch?v="] true s = true) :
    acceptsRecognizedHost s = true := by
  rw [matchPat, List.any_eq_true] at h
  obtain ⟨sc, hsc, h⟩ := h
  rw [List.any_eq_true] at h
  obtain ⟨w, hw, h⟩ := h
  rw [List.any_eq_true] at h
  obtain ⟨t, ht, h⟩ := h
  rw [List.mem_singleton] at ht
  subst ht
  have hsplit : sc ++ (w ++ chars "youtube.com/watch?v=") =
      (sc ++ (w ++ chars "youtube.com/")) ++ chars "watch?v=" := by
    rw [show chars "youtube.com/watch?v=" =
        chars "youtube.com/" ++ chars "watch?v=" from rfl]
    simp [List.append_assoc]
  rw [hsplit] at h
  have hp := afterLit_append_isPrefixOf h
  rw [acceptsRecognizedHost, List.any_eq_true]
  refine ⟨sc, hsc, ?_⟩
  rw [List.any_eq_true]
  refine ⟨w, hw, ?_⟩
  rw [List.any_eq_true]
  exact ⟨chars "youtube.com/", by decide, hp⟩

theorem matchPat_short_subsumed {s : List Char}
    (h : matchPat [chars "youtu.be/"] true s = true) :
    acceptsRecognizedHost s = true := by
  rw [matchPat, List.any_eq_true] at h
  obtain ⟨sc, hsc, h⟩ := h
  rw [List.any_eq_true] at h
  obtain ⟨w, hw, h⟩ := h
  rw [List.any_eq_true] at h
  obtain ⟨t, ht, h⟩ := h
  rw [List.mem_singleton] at ht
  subst ht
  have hsplit : sc ++ (w ++ chars "youtu.be/") =
      (sc ++ (w ++ chars "youtu.be/")) ++ [] := by simp
  rw [hsplit] at h
  have hp := afterLit_append_isPrefixOf h
  rw [acceptsRecognizedHost, List.any_eq_true]
  refine ⟨sc, hsc, ?_⟩
  rw [List.any_eq_true]
  refine ⟨w, hw, ?_⟩
  rw [List.any_eq_true]
  exact ⟨chars "youtu.be/", by decide, hp⟩

/-- C1 (amended).  The validator accepts exactly the strings that begin with
an optional scheme, an optional `www.`, and one of the six recognized
host-slash forms — the two specific patterns (`watch?v=ID`, `youtu.be/ID`)
are subsumed by the bare host-prefix pattern, so any fragment after a
recognized host is accepted, malformed or not; strings without such a prefix
(the empty string, non-matching hosts) are rejected. -/
theorem validate_youtube_url_amended (s : List Char) :
    validate_youtube_url s = acceptsRecognizedHost s := by
  have h1 := matchPat_false_eq_acceptsRecognizedHost s
  cases ha : acceptsRecognizedHost s with
  | true =>
    rw [validate_youtube_url, h1, ha, Bool.true_or, Bool.true_or]
  | false =>
    have hp2 : matchPat [chars "youtube.com/watch?v="] true s = false := by
      cases hx : matchPat [chars "youtube.com/watch?v="] true s
      · rfl
      · rw [matchPat_watch_subsumed hx] at ha
        cases ha
    have hp3 : matchPat [chars "youtu.be/"] true s = false := by
      cases hx : matchPat [chars "youtu.be/"] true s
      · rfl
      · rw [matchPat_short_subsumed hx] at ha
        cases ha
    rw [validate_youtube_url, h1, ha, hp2, hp3, Bool.or_self, Bool.or_self]

/-- C1 (counterexample).  The string "youtube.com/watch?v=" has the canonical
long-form prefix but a malformed fragment — no video id after `v=` — yet the
validator returns true, refuting the claim that every string not matching a
recognized URL shape is rejected. -/
theorem validate_youtube_url_malformed_cex :
    validate_youtube_url (chars "youtube.com/watch?v=") = true := by decide

/-! ## Lemmas about the eviction sweep -/

theorem sweepFrom_no_failure (now : Int) (es : List DirEntry)
    (h : ∀ e ∈ es, e.unlinkFails = false) :
    (sweepFrom now es).1 =
      es.filter fun e => !(e.isFile && decide (now - e.mtime > 3600)) := by
  induction es with
  | nil => rfl
  | cons e rest ih =>
    have he : e.unlinkFails = false := h e (List.mem_cons_self e rest)
    have hrest : ∀ x ∈ rest, x.unlinkFails = false :=
      fun x hx => h x (List.mem_cons_of_mem e hx)
    cases hc : e.isFile && decide (now - e.mtime > 3600) with
    | true =>
      have hstep : sweepFrom now (e :: rest) = sweepFrom now rest := by
        simp [sweepFrom, hc, he]
      have hm : (!(e.isFile && decide (now - e.mtime > 3600))) = false := by
        rw [hc]; rfl
      rw [hstep, List.filter_cons, hm, ih hrest, if_neg (by decide)]
    | false =>
      have hstep : (sweepFrom now (e :: rest)).1 = e :: (sweepFrom now rest).1 := by
        simp [sweepFrom, hc]
      have hm : (!(e.isFile && decide (now - e.mtime > 3600))) = true := by
        rw [hc]; rfl
      rw [hstep, List.filter_cons, hm, ih hrest, if_pos rfl]

/-- C8 (confirmed).  When the directory is readable and no individual
deletion fails, the eviction sweep removes exactly the regular files whose
age strictly exceeds 3600 seconds: the surviving entries are those that are
not regular files or whose age is at most 3600 seconds. -/
theorem clean_old_files_exact (now : Int) (es : List DirEntry)
    (h : ∀ e ∈ es, e.unlinkFails = false) :
    (clean_old_files true now es).1 =
      es.filter fun e => !(e.isFile && decide (now - e.mtime > 3600)) := by
  unfold clean_old_files
  rw [if_pos rfl]
  exact sweepFrom_no_failure now es h

/-- C8 (witness).  With the threshold of 3600 seconds and current time 10000,
the regular file whose mtime is 61 minutes old (age 3660) is deleted, the
regular file 59 minutes old (age 3540) is retained, and a stale non-file
entry is retained as well. -/
theorem clean_old_files_exact_witness :
    (∀ e ∈ ([⟨true, 6340, false⟩, ⟨true, 6460, false⟩,
        ⟨false, 0, false⟩] : List DirEntry), e.unlinkFails = false) ∧
    (clean_old_files true 10000
        ([⟨true, 6340, false⟩, ⟨true, 6460, false⟩,
          ⟨false, 0, false⟩] : List DirEntry)).1 =
      ([⟨true, 6340, false⟩, ⟨true, 6460, false⟩,
        ⟨false, 0, false⟩] : List DirEntry).filter
        (fun e => !(e.isFile && decide ((10000 : Int) - e.mtime > 3600))) ∧
    (clean_old_files true 10000
        ([⟨true, 6340, false⟩, ⟨true, 6460, false⟩,
          ⟨false, 0, false⟩] : List DirEntry)).1 =
      ([⟨true, 6460, false⟩, ⟨false, 0, false⟩] : List DirEntry) :=
  ⟨by decide, clean_old_files_exact 10000 _ (by decide), by decide⟩

/-- C3 (counterexample).  A directory holds two stale regular files; the
first raises on `unlink`.  The failure does not raise to the caller, but the
`try/except` wraps the whole loop, so the sweep aborts: the second file
survives even though the sweep would delete it on its own — refuting the
claim that every other stale file is still examined and deleted. -/
theorem clean_old_files_abort_cex :
    (clean_old_files true 10000
        ([⟨true, 0, true⟩, ⟨true, 0, false⟩] : List DirEntry)).1 =
      ([⟨true, 0, true⟩, ⟨true, 0, false⟩] : List DirEntry) ∧
    (clean_old_files true 10000 ([⟨true, 0, false⟩] : List DirEntry)).1 =
      ([] : List DirEntry) ∧
    (clean_old_files true 10000
        ([⟨true, 0, true⟩, ⟨true, 0, false⟩] : List DirEntry)).2 = false := by
  exact ⟨by decide, by decide, by decide⟩

/-- C3 (amended).  A failure to delete one file is swallowed and logged
without raising to the caller — `clean_old_files` never reports an escaped
exception, even when the directory is unreadable — but it aborts the rest of
the sweep: when the first entry is a stale regular file whose deletion
fails, every entry after it is left untouched rather than examined. -/
theorem clean_old_files_amended (readable : Bool) (now : Int)
    (es post : List DirEntry) (e : DirEntry)
    (hf : e.isFile = true) (hs : now - e.mtime > 3600)
    (hu : e.unlinkFails = true) :
    (clean_old_files readable now es).2 = false ∧
    clean_old_files true now (e :: post) = (e :: post, false) := by
  constructor
  · unfold clean_old_files
    cases readable <;> simp
  · unfold clean_old_files
    rw [if_pos rfl]
    simp [sweepFrom, hf, hu, hs]

/-- C3 (witness for the amended theorem). -/
theorem clean_old_files_amended_witness :
    (DirEntry.mk true 0 true).isFile = true ∧
    ((10000 : Int) - (DirEntry.mk true 0 true).mtime > 3600) ∧
    (DirEntry.mk true 0 true).unlinkFails = true ∧
    ((clean_old_files false 10000 ([⟨true, 0, false⟩] : List DirEntry)).2 = false ∧
      clean_old_files true 10000
          ([⟨true, 0, true⟩, ⟨true, 0, false⟩] : List DirEntry) =
        (([⟨true, 0, true⟩, ⟨true, 0, false⟩] : List DirEntry), false)) :=
  ⟨by decide, by decide, by decide,
    clean_old_files_amended false 10000 [⟨true, 0, false⟩] [⟨true, 0, false⟩]
      ⟨true, 0, true⟩ (by decide) (by decide) (by decide)⟩

/-! ## Lemmas about the output path templates -/

theorem digitChar_toNat_sub {d : Nat} (hd : d < 10) :
    (Nat.digitChar d).toNat - 48 = d := by
  interval_cases d <;> rfl

theorem decodeDec_decimalDigits (n : Nat) : decodeDec (decimalDigits n) = n := by
  rcases eq_or_ne n 0 with rfl | hn
  · decide
  · unfold decimalDigits decodeDec
    rw [if_neg hn, List.reverse_reverse, List.map_map]
    have hmap : ∀ d ∈ Nat.digits 10 n,
        ((fun c => c.toNat - 48) ∘ Nat.digitChar) d = id d := by
      intro d hd
      have hlt : d < 10 := Nat.digits_lt_base (by norm_num) hd
      simp [Function.comp, digitChar_toNat_sub hlt]
    rw [List.map_congr_left hmap, List.map_id]
    exact Nat.ofDigits_digits 10 n

theorem decimalDigits_injective {a b : Nat}
    (h : decimalDigits a = decimalDigits b) : a = b := by
  have hd := congrArg decodeDec h
  rwa [decodeDec_decimalDigits, decodeDec_decimalDigits] at hd

theorem output_template_inj_ts {dir kind : List Char} {t1 t2 : Nat}
    (h : output_template dir kind t1 = output_template dir kind t2) : t1 = t2 := by
  unfold output_template at h
  have h1 := List.append_cancel_right h
  have h2 := List.append_cancel_left h1
  exact decimalDigits_injective h2

theorem video_template_ne_audio_template (dir : List Char) (t1 t2 : Nat) :
    video_template dir t1 ≠ audio_template dir t2 := by
  intro h
  unfold video_template audio_template output_template at h
  simp only [List.append_assoc] at h
  have h1 := List.append_cancel_left h
  have h2 := List.append_cancel_left h1
  have h3 : (some 'v' : Option Char) = some 'a' := congrArg List.head? h2
  exact absurd (Option.some.inj h3) (by decide)

/-- C7 (amended).  The allocated templates embed the kind tag and the
request timestamp, so two download requests collide only when both the kind
and the whole-second timestamp coincide: distinct timestamps give distinct
templates for either kind, and a video template never equals an audio
template.  Requests of the same kind within the same second, however, share
one template (see the counterexample). -/
theorem output_template_distinct (dir : List Char) (ts1 ts2 : Nat)
    (h : ts1 ≠ ts2) :
    video_template dir ts1 ≠ video_template dir ts2 ∧
    audio_template dir ts1 ≠ audio_template dir ts2 ∧
    ∀ u1 u2 : Nat, video_template dir u1 ≠ audio_template dir u2 := by
  refine ⟨?_, ?_, fun u1 u2 => video_template_ne_audio_template dir u1 u2⟩
  · intro he
    exact h (output_template_inj_ts he)
  · intro he
    exact h (output_template_inj_ts he)

/-- C7 (witness for the amended theorem). -/
theorem output_template_distinct_witness :
    (1700000000 : Nat) ≠ 1700000001 ∧
    (video_template (chars "/tmp/yt_downloads") 1700000000 ≠
        video_template (chars "/tmp/yt_downloads") 1700000001 ∧
      audio_template (chars "/tmp/yt_downloads") 1700000000 ≠
        audio_template (chars "/tmp/yt_downloads") 1700000001 ∧
      ∀ u1 u2 : Nat, video_template (chars "/tmp/yt_downloads") u1 ≠
        audio_template (chars "/tmp/yt_downloads") u2) :=
  ⟨by decide, output_template_distinct (chars "/tmp/yt_downloads")
    1700000000 1700000001 (by decide)⟩

/-- C7 (counterexample).  `timestamp = int(time.time())` has one-second
resolution, so two near-simultaneous video download requests for the same
URL obtain the same timestamp and are allocated exactly the same output
path template; when the extracted titles coincide the resulting file paths
collide, refuting the claim that the files never collide. -/
theorem same_second_template_collision_cex :
    (download_video (chars "/tmp/yt_downloads") (chars "youtu.be/abc")
        1700000000 (.otherError []) (fun _ => false)).outputTemplate =
      (download_video (chars "/tmp/yt_downloads") (chars "youtu.be/abc")
        1700000000 (.otherError []) (fun _ => false)).outputTemplate ∧
    (download_video (chars "/tmp/yt_downloads") (chars "youtu.be/abc")
        1700000000 (.otherError []) (fun _ => false)).outputTemplate =
      some (video_template (chars "/tmp/yt_downloads") 1700000000) :=
  ⟨rfl, rfl⟩

/-! ## Lemmas about the request handlers -/

theorem validate_youtube_url_nil : validate_youtube_url [] = false := by decide

theorem pyStrip_isEmpty_false {url : List Char}
    (hv : validate_youtube_url (pyStrip url) = true) :
    (pyStrip url).isEmpty = false := by
  cases he : (pyStrip url).isEmpty
  · rfl
  · rw [List.isEmpty_iff.mp he, validate_youtube_url_nil] at hv
    cases hv

theorem download_video_valid_eq {url : List Char}
    (hv : validate_youtube_url (pyStrip url) = true) (dir : List Char)
    (ts : Nat) (o : Outcome) (fs : List Char → Bool) :
    download_video dir url ts o fs = download_video_core dir ts o fs := by
  have he := pyStrip_isEmpty_false hv
  simp [download_video, he, hv]

theorem download_audio_valid_eq {url : List Char}
    (hv : validate_youtube_url (pyStrip url) = true) (dir : List Char)
    (ts : Nat) (o : Outcome) (fs : List Char → Bool) :
    download_audio dir url ts o fs = download_audio_core dir ts o fs := by
  have he := pyStrip_isEmpty_false hv
  simp [download_audio, he, hv]

/-- C4 (confirmed).  Whenever the (stripped) URL of a download request fails
validation — video or audio — the handler answers 400 with a JSON error body
and short-circuits: the eviction sweep does not run, no output path
template is allocated, and the extraction client is never invoked, whatever
the extraction oracle would have returned. -/
theorem invalid_url_short_circuit (dir url : List Char) (ts : Nat)
    (ov oa : Outcome) (fsv fsa : List Char → Bool)
    (h : validate_youtube_url (pyStrip url) = false) :
    shortCircuit400 (download_video dir url ts ov fsv) = true ∧
    shortCircuit400 (download_audio dir url ts oa fsa) = true := by
  cases he : (pyStrip url).isEmpty with
  | true =>
    have h1 : download_video dir url ts ov fsv =
        ⟨.jsonError 400 (chars "URL is required"), false, none, false⟩ := by
      simp [download_video, he]
    have h2 : download_audio dir url ts oa fsa =
        ⟨.jsonError 400 (chars "URL is required"), false, none, false⟩ := by
      simp [download_audio, he]
    rw [h1, h2]
    exact ⟨rfl, rfl⟩
  | false =>
    have h1 : download_video dir url ts ov fsv =
        ⟨.jsonError 400 (chars "Invalid YouTube URL"), false, none, false⟩ := by
      simp [download_video, he, h]
    have h2 : download_audio dir url ts oa fsa =
        ⟨.jsonError 400 (chars "Invalid YouTube URL"), false, none, false⟩ := by
      simp [download_audio, he, h]
    rw [h1, h2]
    exact ⟨rfl, rfl⟩

/-- C4 (witness). -/
theorem invalid_url_short_circuit_witness :
    validate_youtube_url (pyStrip (chars "notaurl")) = false ∧
    (shortCircuit400 (download_video (chars "/tmp/yt_downloads") (chars "notaurl")
        1700000000 (.otherError []) (fun _ => false)) = true ∧
      shortCircuit400 (download_audio (chars "/tmp/yt_downloads") (chars "notaurl")
        1700000000 (.otherError []) (fun _ => false)) = true) :=
  ⟨by decide, invalid_url_short_circuit (chars "/tmp/yt_downloads") (chars "notaurl")
    1700000000 (.otherError []) (.otherError []) (fun _ => false) (fun _ => false)
    (by decide)⟩

/-- C5 (confirmed).  When the extraction call reports success but the
expected output file does not exist on disk — for video, neither the
predicted filename nor its `.mp4` variant; for audio, the `.mp3` filename —
the handlers answer 500 with the conversion-failure JSON error body, and in
particular never 200. -/
theorem missing_file_500 (dir url fv fa : List Char) (ts : Nat)
    (tv ta : Option (List Char)) (fsv fsa : List Char → Bool)
    (hv : validate_youtube_url (pyStrip url) = true)
    (hm1 : fsv fv = false)
    (hm2 : fsv (splitextRoot fv ++ chars ".mp4") = false)
    (hm3 : fsa (splitextRoot fa ++ chars ".mp3") = false) :
    (download_video dir url ts (.success tv fv) fsv).resp =
      .jsonError 500 (chars "Download failed - file not found") ∧
    (download_audio dir url ts (.success ta fa) fsa).resp =
      .jsonError 500 (chars "Download failed - MP3 conversion failed") ∧
    (download_video dir url ts (.success tv fv) fsv).resp.status = 500 ∧
    (download_audio dir url ts (.success ta fa) fsa).resp.status = 500 := by
  rw [download_video_valid_eq hv, download_audio_valid_eq hv]
  have h1 : download_video_core dir ts (.success tv fv) fsv =
      ⟨.jsonError 500 (chars "Download failed - file not found"),
        true, some (video_template dir ts), true⟩ := by
    simp [download_video_core, hm1, hm2]
  have h2 : download_audio_core dir ts (.success ta fa) fsa =
      ⟨.jsonError 500 (chars "Download failed - MP3 conversion failed"),
        true, some (audio_template dir ts), true⟩ := by
    simp [download_audio_core, hm3]
  rw [h1, h2]
  exact ⟨rfl, rfl, rfl, rfl⟩

/-- C5 (witness). -/
theorem missing_file_500_witness :
    validate_youtube_url (pyStrip (chars "youtu.be/abc")) = true ∧
    (fun _ => false : List Char → Bool) (chars "/t/video_5_T.webm") = false ∧
    (fun _ => false : List Char → Bool)
      (splitextRoot (chars "/t/video_5_T.webm") ++ chars ".mp4") = false ∧
    (fun _ => false : List Char → Bool)
      (splitextRoot (chars "/t/audio_5_T.webm") ++ chars ".mp3") = false ∧
    ((download_video (chars "/t") (chars "youtu.be/abc") 5
        (.success (some (chars "T")) (chars "/t/video_5_T.webm"))
        (fun _ => false)).resp =
      .jsonError 500 (chars "Download failed - file not found") ∧
    (download_audio (chars "/t") (chars "youtu.be/abc") 5
        (.success (some (chars "T")) (chars "/t/audio_5_T.webm"))
        (fun _ => false)).resp =
      .jsonError 500 (chars "Download failed - MP3 conversion failed") ∧
    (download_video (chars "/t") (chars "youtu.be/abc") 5
        (.success (some (chars "T")) (chars "/t/video_5_T.webm"))
        (fun _ => false)).resp.status = 500 ∧
    (download_audio (chars "/t") (chars "youtu.be/abc") 5
        (.success (some (chars "T")) (chars "/t/audio_5_T.webm"))
        (fun _ => false)).resp.status = 500) :=
  ⟨by decide, rfl, rfl, rfl,
    missing_file_500 (chars "/t") (chars "youtu.be/abc")
      (chars "/t/video_5_T.webm") (chars "/t/audio_5_T.webm") 5
      (some (chars "T")) (some (chars "T")) (fun _ => false) (fun _ => false)
      (by decide) rfl rfl rfl⟩

/-- C6 (confirmed).  An extraction failure (`DownloadError`) whose message
carries the site-blocking signature — it contains "403" or "Forbidden" — is
answered 403 with the user-actionable blocked message by both download
handlers; a `DownloadError` without the signature, and any other extraction
failure, is answered 500. -/
theorem extraction_failure_classified (dir url mb mo mu : List Char)
    (ts : Nat) (fsv fsa : List Char → Bool)
    (hv : validate_youtube_url (pyStrip url) = true)
    (hb : blockedMsg mb = true) (hn : blockedMsg mo = false) :
    (download_video dir url ts (.downloadError mb) fsv).resp =
      .jsonError 403 (chars "YouTube blocked the download. Try a different video.") ∧
    (download_audio dir url ts (.downloadError mb) fsa).resp =
      .jsonError 403 (chars "YouTube blocked the download. Try a different video.") ∧
    (download_video dir url ts (.downloadError mo) fsv).resp.status = 500 ∧
    (download_audio dir url ts (.downloadError mo) fsa).resp.status = 500 ∧
    (download_video dir url ts (.otherError mu) fsv).resp.status = 500 ∧
    (download_audio dir url ts (.otherError mu) fsa).resp.status = 500 := by
  rw [download_video_valid_eq hv, download_audio_valid_eq hv,
    download_video_valid_eq hv, download_audio_valid_eq hv,
    download_video_valid_eq hv, download_audio_valid_eq hv]
  refine ⟨?_, ?_, ?_, ?_, ?_, ?_⟩
  · simp [download_video_core, hb]
  · simp [download_audio_core, hb]
  · simp [download_video_core, hn, Resp.status]
  · cases hf : ffmpegMsg mo with
    | true => simp [download_audio_core, hn, hf, Resp.status]
    | false => simp [download_audio_core, hn, hf, Resp.status]
  · simp [download_video_core, Resp.status]
  · simp [download_audio_core, Resp.status]

/-- C6 (witness). -/
theorem extraction_failure_classified_witness :
    validate_youtube_url (pyStrip (chars "youtu.be/abc")) = true ∧
    blockedMsg (chars "HTTP Error 403: Forbidden") = true ∧
    blockedMsg (chars "timed out") = false ∧
    ((download_video (chars "/t") (chars "youtu.be/abc") 5
        (.downloadError (chars "HTTP Error 403: Forbidden")) (fun _ => false)).resp =
      .jsonError 403 (chars "YouTube blocked the download. Try a different video.") ∧
    (download_audio (chars "/t") (chars "youtu.be/abc") 5
        (.downloadError (chars "HTTP Error 403: Forbidden")) (fun _ => false)).resp =
      .jsonError 403 (chars "YouTube blocked the download. Try a different video.") ∧
    (download_video (chars "/t") (chars "youtu.be/abc") 5
        (.downloadError (chars "timed out")) (fun _ => false)).resp.status = 500 ∧
    (download_audio (chars "/t") (chars "youtu.be/abc") 5
        (.downloadError (chars "timed out")) (fun _ => false)).resp.status = 500 ∧
    (download_video (chars "/t") (chars "youtu.be/abc") 5
        (.otherError (chars "boom")) (fun _ => false)).resp.status = 500 ∧
    (download_audio (chars "/t") (chars "youtu.be/abc") 5
        (.otherError (chars "boom")) (fun _ => false)).resp.status = 500) :=
  ⟨by decide, by decide, by decide,
    extraction_failure_classified (chars "/t") (chars "youtu.be/abc")
      (chars "HTTP Error 403: Forbidden") (chars "timed out") (chars "boom") 5
      (fun _ => false) (fun _ => false) (by decide) (by decide) (by decide)⟩

/-- C10 (confirmed).  In the video download handler, when the predicted
filename exists it is served; when it does not exist but the same base name
with an `.mp4` extension does, that file is served; only when neither path
exists does the handler answer the 500 file-not-found error. -/
theorem video_mp4_fallback (dir url f1 f2 f3 : List Char) (ts : Nat)
    (topt : Option (List Char)) (fs1 fs2 fs3 : List Char → Bool)
    (hv : validate_youtube_url (pyStrip url) = true)
    (h1 : fs1 f1 = true)
    (h2a : fs2 f2 = false)
    (h2b : fs2 (splitextRoot f2 ++ chars ".mp4") = true)
    (h3a : fs3 f3 = false)
    (h3b : fs3 (splitextRoot f3 ++ chars ".mp4") = false) :
    (download_video dir url ts (.success topt f1) fs1).resp =
      .fileResp f1 (clean_filename (topt.getD (chars "video")) ++ chars ".mp4")
        (chars "video/mp4") ∧
    (download_video dir url ts (.success topt f2) fs2).resp =
      .fileResp (splitextRoot f2 ++ chars ".mp4")
        (clean_filename (topt.getD (chars "video")) ++ chars ".mp4")
        (chars "video/mp4") ∧
    (download_video dir url ts (.success topt f3) fs3).resp =
      .jsonError 500 (chars "Download failed - file not found") := by
  rw [download_video_valid_eq hv, download_video_valid_eq hv,
    download_video_valid_eq hv]
  refine ⟨?_, ?_, ?_⟩
  · simp [download_video_core, h1]
  · simp [download_video_core, h2a, h2b]
  · simp [download_video_core, h3a, h3b]

/-- C10 (witness).  With the predicted `.webm` path absent and its `.mp4`
variant present, the handler serves the `.mp4` file. -/
theorem video_mp4_fallback_witness :
    validate_youtube_url (pyStrip (chars "youtu.be/abc")) = true ∧
    (fun _ => true : List Char → Bool) (chars "/t/a.mp4") = true ∧
    (fun p => p == chars "/t/video_5_T.mp4") (chars "/t/video_5_T.webm") = false ∧
    (fun p => p == chars "/t/video_5_T.mp4")
      (splitextRoot (chars "/t/video_5_T.webm") ++ chars ".mp4") = true ∧
    (fun _ => false : List Char → Bool) (chars "/t/b.webm") = false ∧
    (fun _ => false : List Char → Bool)
      (splitextRoot (chars "/t/b.webm") ++ chars ".mp4") = false ∧
    ((download_video (chars "/t") (chars "youtu.be/abc") 5
        (.success (some (chars "T")) (chars "/t/a.mp4")) (fun _ => true)).resp =
      .fileResp (chars "/t/a.mp4")
        (clean_filename ((some (chars "T")).getD (chars "video")) ++ chars ".mp4")
        (chars "video/mp4") ∧
    (download_video (chars "/t") (chars "youtu.be/abc") 5
        (.success (some (chars "T")) (chars "/t/video_5_T.webm"))
        (fun p => p == chars "/t/video_5_T.mp4")).resp =
      .fileResp (splitextRoot (chars "/t/video_5_T.webm") ++ chars ".mp4")
        (clean_filename ((some (chars "T")).getD (chars "video")) ++ chars ".mp4")
        (chars "video/mp4") ∧
    (download_video (chars "/t") (chars "youtu.be/abc") 5
        (.success (some (chars "T")) (chars "/t/b.webm")) (fun _ => false)).resp =
      .jsonError 500 (chars "Download failed - file not found")) :=
  ⟨by decide, rfl, by decide, by decide, rfl, rfl,
    video_mp4_fallback (chars "/t") (chars "youtu.be/abc") (chars "/t/a.mp4")
      (chars "/t/video_5_T.webm") (chars "/t/b.webm") 5 (some (chars "T"))
      (fun _ => true) (fun p => p == chars "/t/video_5_T.mp4") (fun _ => false)
      (by decide) rfl (by decide) (by decide) rfl rfl⟩

/-- C9 (confirmed).  The metadata handler never touches the scratch
directory: for every URL, extraction outcome and directory state, the
directory state is returned unchanged, no eviction sweep runs, no output
path is allocated, and the extraction client is never invoked with
`download=True`. -/
theorem get_video_info_no_effects (url : List Char) (o : InfoOutcome)
    (st : List DirEntry) :
    (get_video_info url o st).dirAfter = st ∧
    (get_video_info url o st).evictionRan = false ∧
    (get_video_info url o st).outputTemplate = none ∧
    (get_video_info url o st).downloadFlagTrue = false := by
  cases he : (pyStrip url).isEmpty <;>
    cases hv : validate_youtube_url (pyStrip url) <;>
      cases o <;> simp [get_video_info, he, hv]

/-! ## Lemmas about the filename sanitizer -/

theorem dropWhile_head_false {p : Char → Bool} :
    ∀ {l : List Char} {c : Char} {t : List Char},
      l.dropWhile p = c :: t → p c = false := by
  intro l
  induction l with
  | nil => intro c t h; cases h
  | cons d l ih =>
    intro c t h
    rw [List.dropWhile_cons] at h
    by_cases hd : p d = true
    · rw [if_pos hd] at h
      exact ih h
    · rw [if_neg hd] at h
      injection h with h1 _
      subst h1
      cases hb : p d
      · rfl
      · exact absurd hb hd

theorem dropWhile_eq_self_of_head {p : Char → Bool} {l : List Char}
    (h : ∀ c t, l = c :: t → p c = false) : l.dropWhile p = l := by
  cases l with
  | nil => rfl
  | cons c t =>
    have hc := h c t rfl
    rw [List.dropWhile_cons, hc]
    simp

theorem stripEnd_prefix_self (p : Char → Bool) (l : List Char) :
    stripEnd p l <+: l := by
  have h := List.reverse_prefix.mpr (List.dropWhile_suffix (l := l.reverse) p)
  rw [List.reverse_reverse] at h
  exact h

theorem stripEnd_getLast {p : Char → Bool} {l : List Char} {c : Char}
    (h : (stripEnd p l).getLast? = some c) : p c = false := by
  unfold stripEnd at h
  rw [List.getLast?_reverse] at h
  cases hd : l.reverse.dropWhile p with
  | nil => rw [hd] at h; cases h
  | cons d t =>
    rw [hd, List.head?_cons] at h
    injection h with h1
    subst h1
    exact dropWhile_head_false hd

theorem stripEnd_eq_self_of_getLast {p : Char → Bool} {l : List Char}
    (h : ∀ c, l.getLast? = some c → p c = false) : stripEnd p l = l := by
  unfold stripEnd
  have hdrop : l.reverse.dropWhile p = l.reverse := by
    apply dropWhile_eq_self_of_head
    intro c t hct
    apply h
    rw [← List.head?_reverse l, hct, List.head?_cons]
  rw [hdrop, List.reverse_reverse]

theorem stripBoth_head {p : Char → Bool} {l : List Char} {c : Char}
    {t : List Char} (h : stripBoth p l = c :: t) : p c = false := by
  unfold stripBoth at h
  have hpre : (c :: t) <+: l.dropWhile p := h ▸ stripEnd_prefix_self p (l.dropWhile p)
  obtain ⟨r, hr⟩ := hpre
  exact dropWhile_head_false hr.symm

theorem stripBoth_eq_self {p : Char → Bool} {l : List Char}
    (hhead : ∀ c t, l = c :: t → p c = false)
    (hlast : ∀ c, l.getLast? = some c → p c = false) :
    stripBoth p l = l := by
  unfold stripBoth
  rw [dropWhile_eq_self_of_head hhead]
  exact stripEnd_eq_self_of_getLast hlast

theorem mem_stripBoth {p : Char → Bool} {l : List Char} {a : Char}
    (h : a ∈ stripBoth p l) : a ∈ l := by
  unfold stripBoth at h
  have h1 : a ∈ l.dropWhile p := (stripEnd_prefix_self p (l.dropWhile p)).mem h
  exact (List.dropWhile_sublist p).mem h1

theorem truncate200_eq_self {l : List Char} (h : ¬l.length > 200) :
    truncate200 l = l := by
  unfold truncate200
  rw [if_neg h]

set_option maxRecDepth 40000 in
/-- C2 (counterexample).  On the 201-character input of 199 `a`s followed by
`" b"`, no character is removed and nothing is stripped, so truncation to
200 characters exposes a trailing space; a second application strips that
space, so the sanitizer is not idempotent. -/
theorem clean_filename_not_idem_cex :
    clean_filename (clean_filename (List.replicate 199 'a' ++ chars " b")) ≠
      clean_filename (List.replicate 199 'a' ++ chars " b") := by decide

/-- C2 (amended).  The sanitizer is idempotent on every input whose
sanitized result does not end in a space or a dot — in particular on every
input where the truncation step does not fire, since stripping guarantees
such an ending otherwise; only a truncation that exposes a trailing space
or dot (as in the counterexample) breaks idempotence. -/
theorem clean_filename_idem_amended (s : List Char)
    (h : Option.all (fun c => !stripCharSet c) (clean_filename s).getLast? = true) :
    clean_filename (clean_filename s) = clean_filename s := by
  by_cases hE : (truncate200 (stripBoth stripCharSet (removeIllegal s))).isEmpty = true
  · have hr : clean_filename s = chars "download" := by
      unfold clean_filename fallbackIfEmpty
      rw [if_pos hE]
    rw [hr]
    decide
  · have hr : clean_filename s = truncate200 (stripBoth stripCharSet (removeIllegal s)) := by
      unfold clean_filename fallbackIfEmpty
      rw [if_neg hE]
    set c2 := stripBoth stripCharSet (removeIllegal s) with hc2
    have hmemc2 : ∀ a ∈ c2, (!illegalFilenameChar a) = true := by
      intro a ha
      have hm : a ∈ removeIllegal s := mem_stripBoth (hc2 ▸ ha)
      exact (List.mem_filter.mp hm).2
    have hmemr : ∀ a ∈ truncate200 c2, (!illegalFilenameChar a) = true := by
      intro a ha
      apply hmemc2
      unfold truncate200 at ha
      by_cases hl : c2.length > 200
      · rw [if_pos hl] at ha
        exact ( List.take_prefix 200 c2).mem ha
      · rw [if_neg hl] at ha
        exact ha
    have hfil : removeIllegal (truncate200 c2) = truncate200 c2 :=
      List.filter_eq_self.mpr hmemr
    have hhead : ∀ c t, truncate200 c2 = c :: t → stripCharSet c = false := by
      intro c t hct
      unfold truncate200 at hct
      by_cases hl : c2.length > 200
      · rw [if_pos hl] at hct
        cases hc2v : c2 with
        | nil => rw [hc2v] at hct; cases hct
        | cons d t' =>
          rw [hc2v, show (200 : Nat) = 199 + 1 from rfl,
            List.take_succ_cons] at hct
          injection hct with h1 _
          subst h1
          exact stripBoth_head (hc2.symm.trans hc2v)
      · rw [if_neg hl] at hct
        exact stripBoth_head (hc2.symm.trans hct)
    have hlast : ∀ c, (truncate200 c2).getLast? = some c → stripCharSet c = false := by
      intro c hgc
      rw [hr, hgc] at h
      simpa [Option.all] using h
    have hstrip : stripBoth stripCharSet (truncate200 c2) = truncate200 c2 :=
      stripBoth_eq_self hhead hlast
    have hlen : ¬(truncate200 c2).length > 200 := by
      unfold truncate200
      by_cases hl : c2.length > 200
      · rw [if_pos hl, List.length_take]
        omega
      · rw [if_neg hl]
        exact hl
    have hE' : (truncate200 c2).isEmpty = false := by
      cases hx : (truncate200 c2).isEmpty
      · rfl
      · exact absurd hx hE
    rw [hr]
    unfold clean_filename
    rw [hfil, hstrip, truncate200_eq_self hlen]
    unfold fallbackIfEmpty
    rw [hE']
    simp

/-- C2 (witness for the amended theorem). -/
theorem clean_filename_idem_amended_witness :
    Option.all (fun c => !stripCharSet c)
      (clean_filename (chars "My:Video*Name?")).getLast? = true ∧
    clean_filename (clean_filename (chars "My:Video*Name?")) =
      clean_filename (chars "My:Video*Name?") :=
  ⟨by decide, clean_filename_idem_amended (chars "My:Video*Name?") (by decide)⟩

end App
